import Mathlib

/-!
Shallow embedding of `src/app.py` (a Flask HTTP gateway in front of an
S3-compatible object store) and verification of its specification claims.

Modelling conventions:
* JSON values are the inductive `Json`; request bodies (`request.get_json()`)
  are association lists `List (String × Json)`.
* The object store is an association list from keys to stored UTF-8 bodies.
* Each route handler is a pure function from its inputs and the store to
  `Response × Store × List StoreOp`; the `List StoreOp` records the
  object-store calls the handler performed, in order.
* `s3.head_object` can fail in ways that do not depend on the modelled store
  contents (permission errors, network errors), so canvas handlers take the
  head behaviour as an oracle `String → HeadOutcome`; `normalHead st` is the
  nominal behaviour determined by the store contents.
* Machine-level details that no claim touches (floating-point MB conversions,
  timestamps) are omitted and noted at the definition they would belong to.
-/

namespace StorjWorker

/-- JSON values, as produced by `request.get_json()` and `jsonify`.
Numbers are modelled as integers (no claim involves fractional numbers). -/
inductive Json where
  | jnull : Json
  | jbool : Bool → Json
  | jnum : Int → Json
  | jstr : String → Json
  | jarr : List Json → Json
  | jobj : List (String × Json) → Json

/-- Python `dict.get(k)` on a parsed JSON object: the first value bound to
the key, or `None` when absent. -/
def jget (data : List (String × Json)) (k : String) : Option Json :=
  (data.find? (fun p => p.1 == k)).map (fun p => p.2)

/-- Field lookup inside a `Json` object (used to state what a response body
reports). -/
def Json.getField : Json → String → Option Json
  | .jobj fs, k => jget fs k
  | _, _ => none

/-- Python truthiness of a JSON value (`if not x:` in the handlers):
`None`, `False`, `0`, `""`, `[]` and `\x7b\x7d` are falsy. -/
def Json.truthy : Json → Bool
  | .jnull => false
  | .jbool b => b
  | .jnum n => n != 0
  | .jstr s => s != ""
  | .jarr xs => !xs.isEmpty
  | .jobj fs => !fs.isEmpty

/-- Truthiness of `data.get(k)` (absent key gives `None`, which is falsy). -/
def truthyOpt : Option Json → Bool
  | none => false
  | some j => j.truthy

/-- JSON string escaping as in `json.dumps(..., ensure_ascii=False)`:
quotes, backslashes and common control characters are escaped, other
characters pass through. -/
def jsonEscape (s : String) : String :=
  s.data.foldl (fun acc c =>
    acc ++ (if c = '"' then "\\\""
            else if c = '\\' then "\\\\"
            else if c = '\n' then "\\n"
            else if c = '\r' then "\\r"
            else if c = '\t' then "\\t"
            else String.singleton c)) ""

/-- A run of `n` spaces (the indentation produced by `json.dumps(indent=2)`). -/
def indentStr (n : Nat) : String := String.mk (List.replicate n ' ')

mutual

/-- Python `json.dumps(v, indent=2, ensure_ascii=False)` at indentation
level `ind`. -/
def dumpsVal (ind : Nat) : Json → String
  | .jnull => "null"
  | .jbool true => "true"
  | .jbool false => "false"
  | .jnum n => toString n
  | .jstr s => "\"" ++ jsonEscape s ++ "\""
  | .jarr [] => "[]"
  | .jarr (x :: xs) =>
      "[\n" ++ indentStr (ind + 2) ++ dumpsVal (ind + 2) x
        ++ dumpsListRest (ind + 2) xs ++ "\n" ++ indentStr ind ++ "]"
  | .jobj [] => "\x7b\x7d"
  | .jobj (f :: fs) =>
      "\x7b\n" ++ indentStr (ind + 2) ++ dumpsOneField (ind + 2) f
        ++ dumpsFieldsRest (ind + 2) fs ++ "\n" ++ indentStr ind ++ "\x7d"

/-- One `"key": value` item of an object. -/
def dumpsOneField (ind : Nat) : String × Json → String
  | (k, v) => "\"" ++ jsonEscape k ++ "\": " ++ dumpsVal ind v

/-- Remaining array items, each preceded by a separator and indentation. -/
def dumpsListRest (ind : Nat) : List Json → String
  | [] => ""
  | x :: xs => ",\n" ++ indentStr ind ++ dumpsVal ind x ++ dumpsListRest ind xs

/-- Remaining object items, each preceded by a separator and indentation. -/
def dumpsFieldsRest (ind : Nat) : List (String × Json) → String
  | [] => ""
  | f :: fs => ",\n" ++ indentStr ind ++ dumpsOneField ind f ++ dumpsFieldsRest ind fs

end

/-- Source lines 322-327 and 369-374: `json.dumps(content, indent=2,
ensure_ascii=False)` when the content is a dict or list, `str(content)`
otherwise (`str` of a JSON scalar follows Python: `True`, `False`, `None`,
decimal digits, or the string itself). -/
def contentToStr : Json → String
  | .jobj fs => dumpsVal 0 (.jobj fs)
  | .jarr xs => dumpsVal 0 (.jarr xs)
  | .jstr s => s
  | .jnum n => toString n
  | .jbool true => "True"
  | .jbool false => "False"
  | .jnull => "None"

/-- An HTTP response: status code and JSON body. -/
structure Response where
  status : Nat
  body : Json

/-- The error body shape `jsonify(\x7b"error": msg\x7d)` used by every
error branch. -/
def errBody (msg : String) : Json := .jobj [("error", .jstr msg)]

/-- The 401 response of the auth gate. -/
def unauthorizedResp : Response := ⟨401, errBody "Unauthorized"⟩

/-- Source lines 103-108 (`check_auth`): when `BACKEND_TOKEN` is truthy
(set and non-empty), a request whose `Authorization` header is not exactly
the string `Bearer ` followed by the token is answered with 401
`\x7b"error": "Unauthorized"\x7d`; otherwise the request proceeds (`None`). -/
def check_auth (backendToken authHeader : Option String) : Option Response :=
  match backendToken with
  | none => none
  | some tok =>
      if tok = "" then none
      else if authHeader = some ("Bearer " ++ tok) then none
      else some unauthorizedResp

/-- The object store: keys mapped to stored bodies (UTF-8 text). -/
def Store := List (String × String)

/-- Store lookup (`s3.get_object`; `none` models the `NoSuchKey` error). -/
def Store.get (st : Store) (k : String) : Option String :=
  (List.find? (fun p => p.1 == k) st).map (fun p => p.2)

/-- Remove a key (`s3.delete_object`). -/
def Store.erase (st : Store) (k : String) : Store :=
  List.filter (fun p => p.1 != k) st

/-- Unconditional write (`s3.put_object`). -/
def Store.put (st : Store) (k v : String) : Store :=
  (k, v) :: Store.erase st k

/-- The keys currently in the bucket (`s3.list_objects_v2`). -/
def Store.keys (st : Store) : List String := List.map (fun p => p.1) st

/-- One object-store call, as recorded by a handler. -/
inductive StoreOp where
  | listOp : StoreOp
  | getOp : String → StoreOp
  | headOp : String → StoreOp
  | putOp : (key body : String) → (contentType : Option String) → StoreOp
  | deleteOp : String → StoreOp

/-- Outcome of `s3.head_object` on a key: success, a botocore `ClientError`
(the class raised both for a missing key — HTTP 404 — and for errors such
as 403 permission denials), or an exception of any other type (e.g. a
connection failure), carrying `str(e)`. -/
inductive HeadOutcome where
  | ok : HeadOutcome
  | clientError : String → HeadOutcome
  | otherExn : String → HeadOutcome

/-- The nominal head behaviour determined by the store contents: success on
a present key, a `ClientError` (404) on an absent one. -/
def normalHead (st : Store) (k : String) : HeadOutcome :=
  if (Store.get st k).isSome then .ok else .clientError "404 Not Found"

/-- Python `filename.endswith(suffix)`, modelled character-wise. -/
def pyEndsWith (s suffix : String) : Bool :=
  List.isSuffixOf suffix.data s.data

/-- Source lines 266-268, 310-312, 358-360, 399-401: append the `.canvas`
extension when the filename does not already end with it. -/
def normalizeCanvas (filename : String) : String :=
  if pyEndsWith filename ".canvas" then filename else filename ++ ".canvas"

/-- Stand-in for `str(e)` of a Python exception raised when a non-string
value reaches a place expecting text (`content.encode`, a boto3 `Key`);
the concrete message text is not modelled, only the resulting status. -/
def pyTypeErrMsg : String := "TypeError"

/-- Source lines 167-179 (`list_notes`): auth, then list all keys. -/
def list_notes (tok auth : Option String) (st : Store) :
    Response × Store × List StoreOp :=
  match check_auth tok auth with
  | some r => (r, st, [])
  | none =>
      (⟨200, .jobj [("files", .jarr (List.map Json.jstr (Store.keys st)))]⟩,
       st, [.listOp])

/-- Source lines 182-205 (`read_note`): auth; 400 when `filename` is falsy;
404 on `NoSuchKey`; otherwise 200 with the UTF-8 decoded content. A truthy
non-string filename raises inside the `try` and yields 500. -/
def read_note (tok auth : Option String) (data : List (String × Json))
    (st : Store) : Response × Store × List StoreOp :=
  match check_auth tok auth with
  | some r => (r, st, [])
  | none =>
      let filename? := jget data "filename"
      if !truthyOpt filename? then (⟨400, errBody "Missing filename"⟩, st, [])
      else
        match filename? with
        | some (.jstr filename) =>
            match Store.get st filename with
            | some content =>
                (⟨200, .jobj [("filename", .jstr filename),
                              ("content", .jstr content)]⟩,
                 st, [.getOp filename])
            | none => (⟨404, errBody "Not found"⟩, st, [.getOp filename])
        | _ => (⟨500, errBody pyTypeErrMsg⟩, st, [])

/-- Source lines 208-233 (`write_note`): auth; `content` defaults to the
empty string; 400 when `filename` is falsy; otherwise overwrite the key
unconditionally and answer with a success body. Non-string filename or
content raises inside the `try` (`content.encode` / boto3 validation) and
yields 500. -/
def write_note (tok auth : Option String) (data : List (String × Json))
    (st : Store) : Response × Store × List StoreOp :=
  match check_auth tok auth with
  | some r => (r, st, [])
  | none =>
      let filename? := jget data "filename"
      let content := (jget data "content").getD (.jstr "")
      if !truthyOpt filename? then (⟨400, errBody "Missing filename"⟩, st, [])
      else
        match filename?, content with
        | some (.jstr filename), .jstr c =>
            (⟨200, .jobj [("success", .jbool true),
                          ("message", .jstr (filename ++ " uploaded"))]⟩,
             Store.put st filename c, [.putOp filename c none])
        | _, _ => (⟨500, errBody pyTypeErrMsg⟩, st, [])

/-- Source lines 238-256 (`list_canvas`): auth, then the keys ending in
`.canvas`. -/
def list_canvas (tok auth : Option String) (st : Store) :
    Response × Store × List StoreOp :=
  match check_auth tok auth with
  | some r => (r, st, [])
  | none =>
      let canvas_files := List.filter (fun k => pyEndsWith k ".canvas") (Store.keys st)
      (⟨200, .jobj [("count", .jnum canvas_files.length),
                    ("files", .jarr (List.map Json.jstr canvas_files))]⟩,
       st, [.listOp])

/-- Source lines 259-290 (`get_canvas`): auth; normalize the path filename;
404 on `NoSuchKey`; otherwise 200 with the content parsed as JSON when
possible (`json.loads` is the oracle `loads`; `none` models
`JSONDecodeError`, falling back to the raw string) plus the size and the
store-reported last-modified time (oracle `lastModOf`). -/
def get_canvas (tok auth : Option String) (filename0 : String)
    (loads : String → Option Json) (lastModOf : String → String)
    (st : Store) : Response × Store × List StoreOp :=
  match check_auth tok auth with
  | some r => (r, st, [])
  | none =>
      let filename := normalizeCanvas filename0
      match Store.get st filename with
      | some content =>
          let canvas_data := match loads content with
            | some j => j
            | none => .jstr content
          (⟨200, .jobj [("filename", .jstr filename),
                        ("content", canvas_data),
                        ("size", .jnum content.length),
                        ("last_modified", .jstr (lastModOf filename))]⟩,
           st, [.getOp filename])
      | none =>
          (⟨404, errBody ("Canvas file \x27" ++ filename ++ "\x27 not found")⟩,
           st, [.getOp filename])

/-- Source lines 293-342 (`create_canvas`): auth; 400 when `filename` or
`content` is falsy; normalize the filename; when `head_object` succeeds the
key exists and the answer is 409 with nothing written; when it raises a
`ClientError` (`except s3.exceptions.ClientError: pass` — any client error,
not only 404) the handler proceeds to serialize and write, answering 201;
any other exception from `head` reaches the outer handler and yields 500
with `str(e)`. A truthy non-string filename raises `AttributeError` at
`filename.endswith` before the `try` (an uncaught 500, body abstracted). -/
def create_canvas (tok auth : Option String) (data : List (String × Json))
    (head : String → HeadOutcome) (st : Store) :
    Response × Store × List StoreOp :=
  match check_auth tok auth with
  | some r => (r, st, [])
  | none =>
      let filename? := jget data "filename"
      let content? := jget data "content"
      if !truthyOpt filename? then (⟨400, errBody "Missing filename"⟩, st, [])
      else if !truthyOpt content? then (⟨400, errBody "Missing content"⟩, st, [])
      else
        match filename? with
        | some (.jstr f0) =>
            let filename := normalizeCanvas f0
            match head filename with
            | .ok =>
                (⟨409, errBody ("Canvas file \x27" ++ filename ++ "\x27 already exists")⟩,
                 st, [.headOp filename])
            | .clientError _ =>
                let content_str := contentToStr (content?.getD .jnull)
                (⟨201, .jobj [("success", .jbool true),
                              ("message", .jstr ("Canvas \x27" ++ filename ++ "\x27 created successfully")),
                              ("filename", .jstr filename)]⟩,
                 Store.put st filename content_str,
                 [.headOp filename, .putOp filename content_str (some "application/json")])
            | .otherExn msg => (⟨500, errBody msg⟩, st, [.headOp filename])
        | _ => (⟨500, errBody pyTypeErrMsg⟩, st, [])

/-- Source lines 345-389 (`update_canvas`): auth; 400 when `content` is
falsy; normalize the path filename; a `ClientError` from `head_object`
(any client error, not only 404) is answered with 404 and nothing written;
on head success the content is serialized and written, answering 200; any
other exception from `head` reaches the outer handler and yields 500. -/
def update_canvas (tok auth : Option String) (filename0 : String)
    (data : List (String × Json)) (head : String → HeadOutcome) (st : Store) :
    Response × Store × List StoreOp :=
  match check_auth tok auth with
  | some r => (r, st, [])
  | none =>
      let content? := jget data "content"
      if !truthyOpt content? then (⟨400, errBody "Missing content"⟩, st, [])
      else
        let filename := normalizeCanvas filename0
        match head filename with
        | .clientError _ =>
            (⟨404, errBody ("Canvas file \x27" ++ filename ++ "\x27 not found")⟩,
             st, [.headOp filename])
        | .otherExn msg => (⟨500, errBody msg⟩, st, [.headOp filename])
        | .ok =>
            let content_str := contentToStr (content?.getD .jnull)
            (⟨200, .jobj [("success", .jbool true),
                          ("message", .jstr ("Canvas \x27" ++ filename ++ "\x27 updated successfully")),
                          ("filename", .jstr filename)]⟩,
             Store.put st filename content_str,
             [.headOp filename, .putOp filename content_str (some "application/json")])

/-- Source lines 392-418 (`delete_canvas`): auth; normalize the path
filename; a `ClientError` from `head_object` is answered with 404 and
nothing deleted; on head success the key is deleted, answering 200; any
other exception from `head` yields 500. -/
def delete_canvas (tok auth : Option String) (filename0 : String)
    (head : String → HeadOutcome) (st : Store) :
    Response × Store × List StoreOp :=
  match check_auth tok auth with
  | some r => (r, st, [])
  | none =>
      let filename := normalizeCanvas filename0
      match head filename with
      | .clientError _ =>
          (⟨404, errBody ("Canvas file \x27" ++ filename ++ "\x27 not found")⟩,
           st, [.headOp filename])
      | .otherExn msg => (⟨500, errBody msg⟩, st, [.headOp filename])
      | .ok =>
          (⟨200, .jobj [("success", .jbool true),
                        ("message", .jstr ("Canvas \x27" ++ filename ++ "\x27 deleted successfully")),
                        ("filename", .jstr filename)]⟩,
           Store.erase st filename, [.headOp filename, .deleteOp filename])

/-- The byte length of a string's UTF-8 encoding (Python `len(s.encode("utf-8"))`,
and `len(b)` for a body modelled as the text it decodes from). -/
def byteLen (s : String) : Nat :=
  (List.map Char.utf8Size s.data).sum

/-- Python `str(request.form)` for a non-empty form: the repr of a Werkzeug
`ImmutableMultiDict` over the form's key-value pairs. -/
def formStr (form : List (String × String)) : String :=
  "ImmutableMultiDict([" ++
    String.intercalate ", "
      (List.map (fun p => "(\x27" ++ p.1 ++ "\x27, \x27" ++ p.2 ++ "\x27)") form)
    ++ "])"

/-- The parts of an incoming request the tracker looks at: the raw body
(`request.data`, empty when absent) and the form entries (`request.form`). -/
structure TrackedRequest where
  data : String
  form : List (String × String)

/-- One completed request/response cycle as the two hooks observe it:
the request, the response body (`response.data`) and the matched route
name (`request.endpoint`). -/
structure ReqEvent where
  req : TrackedRequest
  respData : String
  endpointName : Option String

/-- Per-endpoint counters (one value of `bandwidth_stats["endpoints"]`). -/
structure EndpointStats where
  requests : Nat
  bytes_sent : Nat
  bytes_received : Nat

/-- The process-wide counters (source lines 22-28). `start_time` is a
timestamp outside the model and is omitted. -/
structure BandwidthStats where
  total_bytes_sent : Nat
  total_bytes_received : Nat
  total_requests : Nat
  endpoints : List (String × EndpointStats)

/-- The counters at process start: all zero, no per-endpoint entries. -/
def initialStats : BandwidthStats := ⟨0, 0, 0, []⟩

/-- Lookup in the insertion-ordered endpoints dict. -/
def lookupEp : List (String × EndpointStats) → String → Option EndpointStats
  | [], _ => none
  | p :: rest, k => if p.1 == k then some p.2 else lookupEp rest k

/-- In-place update of an existing key of the endpoints dict (insertion
order preserved, first occurrence updated). -/
def setEp (l : List (String × EndpointStats)) (k : String)
    (v : EndpointStats) : List (String × EndpointStats) :=
  match l with
  | [] => [(k, v)]
  | p :: rest => if p.1 == k then (k, v) :: rest else p :: setEp rest k v

/-- Source lines 62-71 (`track_bandwidth_before`): when the request carries
raw data its byte length is added to the received total; otherwise, when it
carries a non-empty form, the byte length of `str(request.form)` is added.
(The wall-clock `g.start_time` is outside the model.) -/
def track_bandwidth_before (req : TrackedRequest) (bw : BandwidthStats) :
    BandwidthStats :=
  if req.data != "" then
    { bw with total_bytes_received := bw.total_bytes_received + byteLen req.data }
  else if !req.form.isEmpty then
    { bw with total_bytes_received :=
        bw.total_bytes_received + byteLen (formStr req.form) }
  else bw

/-- Source line 85: `request.endpoint or "unknown"` — the matched route
name, with a falsy value (unmatched route) bucketed under `unknown`. -/
def epName : Option String → String
  | some e => if e = "" then "unknown" else e
  | none => "unknown"

/-- Source lines 93-97, the counter updates of one per-endpoint entry:
the request count is incremented and the sent/received byte counters grow
by the byte lengths of the bodies actually present (the raw request body
only — a form-encoded body is never counted here). -/
def updEntry (reqData respData : String) (cur : EndpointStats) : EndpointStats :=
  let cur1 := { cur with requests := cur.requests + 1 }
  let cur2 := if respData != "" then
    { cur1 with bytes_sent := cur1.bytes_sent + byteLen respData } else cur1
  if reqData != "" then
    { cur2 with bytes_received := cur2.bytes_received + byteLen reqData } else cur2

/-- Source lines 86-97, the per-endpoint block of the after hook: the
entry is created lazily (appended to the dict in insertion order), then
its counters are updated in place. -/
def updateEndpoints (l : List (String × EndpointStats)) (ep : String)
    (reqData respData : String) : List (String × EndpointStats) :=
  let l0 := if (lookupEp l ep).isNone then l ++ [(ep, ⟨0, 0, 0⟩)] else l
  setEp l0 ep (updEntry reqData respData ((lookupEp l0 ep).getD ⟨0, 0, 0⟩))

/-- Source lines 74-99 (`track_bandwidth_after`): add the response body's
byte length to the sent total, increment the request counter, then run the
per-endpoint block keyed by the matched route name. -/
def track_bandwidth_after (req : TrackedRequest) (respData : String)
    (endpointName : Option String) (bw : BandwidthStats) : BandwidthStats :=
  let bw1 := if respData != "" then
    { bw with total_bytes_sent := bw.total_bytes_sent + byteLen respData }
  else bw
  let bw2 := { bw1 with total_requests := bw1.total_requests + 1 }
  { bw2 with endpoints :=
      updateEndpoints bw2.endpoints (epName endpointName) req.data respData }

/-- One completed request as the pair of hooks observes it: the before
hook runs on the way in, the after hook on the way out. -/
def processRequest (bw : BandwidthStats) (e : ReqEvent) : BandwidthStats :=
  track_bandwidth_after e.req e.respData e.endpointName
    (track_bandwidth_before e.req bw)

/-- The request-body size the tracker counts for a request: the raw body's
byte length when present, else the byte length of `str(request.form)` when
a form is present, else zero. -/
def observedReqSize (req : TrackedRequest) : Nat :=
  if req.data != "" then byteLen req.data
  else if !req.form.isEmpty then byteLen (formStr req.form)
  else 0

/-- The sum of the per-endpoint received-bytes counters. -/
def sumEpRecv (l : List (String × EndpointStats)) : Nat :=
  (List.map (fun p => p.2.bytes_received) l).sum

/-- Source lines 121-164 (`get_stats`): auth, then a pure rendering of the
counters. The float-valued derived fields (`total_mb_*`, `kb_*`, the
uptime) and the timestamps are floating-point/wall-clock values outside
the integer model and are omitted from the rendered body; the integer
fields are rendered exactly as the source does. -/
def get_stats (tok auth : Option String) (bw : BandwidthStats) : Response :=
  match check_auth tok auth with
  | some r => r
  | none =>
      ⟨200, .jobj [
        ("bandwidth", .jobj [
          ("total_bytes_sent", .jnum bw.total_bytes_sent),
          ("total_bytes_received", .jnum bw.total_bytes_received),
          ("total_bytes", .jnum (bw.total_bytes_sent + bw.total_bytes_received))]),
        ("requests", .jobj [
          ("total", .jnum bw.total_requests),
          ("by_endpoint", .jobj (List.map (fun p =>
            (p.1, Json.jobj [("requests", .jnum p.2.requests),
                             ("bytes_sent", .jnum p.2.bytes_sent),
                             ("bytes_received", .jnum p.2.bytes_received)]))
            bw.endpoints))])]⟩

/-! ## Basic store lemmas -/

theorem Store.get_put_self (st : Store) (k v : String) :
    Store.get (Store.put st k v) k = some v := by
  simp [Store.get, Store.put, List.find?]

/-! ## Claims -/

/-- C1: for every request to an authenticated endpoint, when a bearer token
is configured and the request's Authorization header is not exactly
`Bearer ` followed by the configured secret, the handler returns HTTP 401
with body `\x7b"error": "Unauthorized"\x7d` and performs no object-store
call (the store is unchanged and the recorded operation list is empty);
when no secret is configured, every request proceeds past the auth gate. -/
theorem auth_gate_rejects_before_store (tok : String) (auth : Option String)
    (h1 : tok ≠ "") (h2 : auth ≠ some ("Bearer " ++ tok))
    (data : List (String × Json)) (f : String) (loads : String → Option Json)
    (lastModOf : String → String) (head : String → HeadOutcome)
    (st : Store) (bw : BandwidthStats) :
    check_auth (some tok) auth = some unauthorizedResp ∧
    list_notes (some tok) auth st = (unauthorizedResp, st, []) ∧
    read_note (some tok) auth data st = (unauthorizedResp, st, []) ∧
    write_note (some tok) auth data st = (unauthorizedResp, st, []) ∧
    list_canvas (some tok) auth st = (unauthorizedResp, st, []) ∧
    get_canvas (some tok) auth f loads lastModOf st = (unauthorizedResp, st, []) ∧
    create_canvas (some tok) auth data head st = (unauthorizedResp, st, []) ∧
    update_canvas (some tok) auth f data head st = (unauthorizedResp, st, []) ∧
    delete_canvas (some tok) auth f head st = (unauthorizedResp, st, []) ∧
    get_stats (some tok) auth bw = unauthorizedResp ∧
    (∀ a : Option String, check_auth none a = none) := by
  have hca : check_auth (some tok) auth = some unauthorizedResp := by
    simp [check_auth, h1, h2]
  have hnone : ∀ a : Option String, check_auth none a = none := fun _ => rfl
  refine ⟨hca, ?_, ?_, ?_, ?_, ?_, ?_, ?_, ?_, ?_, hnone⟩ <;>
    simp [list_notes, read_note, write_note, list_canvas, get_canvas,
          create_canvas, update_canvas, delete_canvas, get_stats, hca]

theorem auth_gate_rejects_before_store_witness :
    check_auth (some "tok123") (some "Bearer wrong") = some unauthorizedResp ∧
    write_note (some "tok123") (some "Bearer wrong")
        [("filename", .jstr "a.txt")] [] = (unauthorizedResp, [], []) := by
  have h := auth_gate_rejects_before_store "tok123" (some "Bearer wrong")
    (by decide) (by simp) [("filename", .jstr "a.txt")] "f" (fun _ => none)
    (fun _ => "") (fun _ => .ok) [] initialStats
  exact ⟨h.1, h.2.2.2.1⟩

/-- C2: for every key K and every UTF-8 text C, a successful `/writeNote`
request with filename K and content C followed by a `/readNote` request for
K returns HTTP 200 with content exactly C (round-trip identity through the
store). -/
theorem note_roundtrip (tok auth : Option String)
    (hauth : check_auth tok auth = none) (K C : String) (hK : K ≠ "")
    (st : Store) :
    (write_note tok auth [("filename", .jstr K), ("content", .jstr C)] st).1.status = 200 ∧
    read_note tok auth [("filename", .jstr K)]
        (write_note tok auth [("filename", .jstr K), ("content", .jstr C)] st).2.1 =
      (⟨200, .jobj [("filename", .jstr K), ("content", .jstr C)]⟩,
       (write_note tok auth [("filename", .jstr K), ("content", .jstr C)] st).2.1,
       [.getOp K]) := by
  simp [write_note, read_note, hauth, jget, truthyOpt, Json.truthy, hK,
        List.find?, Store.get_put_self]

theorem note_roundtrip_witness :
    (write_note none none [("filename", .jstr "note.txt"), ("content", .jstr "hello")] []).1.status = 200 ∧
    read_note none none [("filename", .jstr "note.txt")]
        (write_note none none [("filename", .jstr "note.txt"), ("content", .jstr "hello")] []).2.1 =
      (⟨200, .jobj [("filename", .jstr "note.txt"), ("content", .jstr "hello")]⟩,
       (write_note none none [("filename", .jstr "note.txt"), ("content", .jstr "hello")] []).2.1,
       [.getOp "note.txt"]) :=
  note_roundtrip none none rfl "note.txt" "hello" (by decide) []

/-- C9: a `/writeNote` request with a filename but no content field does
not fail validation: content defaults to the empty string, which is stored
under the key, and the handler answers with a success response rather than
HTTP 400. -/
theorem write_note_defaults_empty_content (tok auth : Option String)
    (hauth : check_auth tok auth = none) (K : String) (hK : K ≠ "")
    (st : Store) :
    write_note tok auth [("filename", .jstr K)] st =
      (⟨200, .jobj [("success", .jbool true),
                    ("message", .jstr (K ++ " uploaded"))]⟩,
       Store.put st K "", [.putOp K "" none]) := by
  simp [write_note, hauth, jget, truthyOpt, Json.truthy, hK, List.find?]

theorem write_note_defaults_empty_content_witness :
    write_note none none [("filename", .jstr "n.txt")] [] =
      (⟨200, .jobj [("success", .jbool true),
                    ("message", .jstr "n.txt uploaded")]⟩,
       Store.put [] "n.txt" "", [.putOp "n.txt" "" none]) :=
  write_note_defaults_empty_content none none rfl "n.txt" (by decide) []

/-- C3 counterexample: a POST /canvas with filename `foo` and a content
field that is present but empty (`""`) is answered with 400, not 201, and
nothing is stored under `foo.canvas`: the source checks `if not content:`
(Python truthiness), not mere presence. -/
theorem create_canvas_present_empty_content_400 :
    (create_canvas none none [("filename", .jstr "foo"), ("content", .jstr "")]
        (normalHead []) []).1.status = 400 ∧
    (create_canvas none none [("filename", .jstr "foo"), ("content", .jstr "")]
        (normalHead []) []).1.status ≠ 201 ∧
    Store.get (create_canvas none none
        [("filename", .jstr "foo"), ("content", .jstr "")]
        (normalHead []) []).2.1 "foo.canvas" = none := by
  refine ⟨rfl, by decide, rfl⟩

/-- C3 (amended): creating a canvas via POST /canvas with filename `foo`
(no suffix) and present **truthy** (non-empty) content stores the object
under key `foo.canvas` and returns HTTP 201; a second create with the same
filename, now that the key exists in the store, returns HTTP 409 and
leaves the store unchanged. -/
theorem create_canvas_suffix_and_conflict (tok auth : Option String)
    (hauth : check_auth tok auth = none) (c c2 : Json)
    (hc : c.truthy = true) (hc2 : c2.truthy = true) (st : Store)
    (h0 : Store.get st "foo.canvas" = none) :
    (create_canvas tok auth [("filename", .jstr "foo"), ("content", c)]
        (normalHead st) st).1.status = 201 ∧
    Store.get (create_canvas tok auth [("filename", .jstr "foo"), ("content", c)]
        (normalHead st) st).2.1 "foo.canvas" = some (contentToStr c) ∧
    (create_canvas tok auth [("filename", .jstr "foo"), ("content", c2)]
        (normalHead (Store.put st "foo.canvas" (contentToStr c)))
        (Store.put st "foo.canvas" (contentToStr c))) =
      (⟨409, errBody "Canvas file \x27foo.canvas\x27 already exists"⟩,
       Store.put st "foo.canvas" (contentToStr c), [.headOp "foo.canvas"]) := by
  have e1 : normalizeCanvas "foo" = "foo.canvas" := by decide
  have hr1 : create_canvas tok auth [("filename", .jstr "foo"), ("content", c)]
      (normalHead st) st =
      (⟨201, .jobj [("success", .jbool true),
                    ("message", .jstr "Canvas \x27foo.canvas\x27 created successfully"),
                    ("filename", .jstr "foo.canvas")]⟩,
       Store.put st "foo.canvas" (contentToStr c),
       [.headOp "foo.canvas",
        .putOp "foo.canvas" (contentToStr c) (some "application/json")]) := by
    have htf : Json.truthy (.jstr "foo") = true := by decide
    simp [create_canvas, hauth, jget, List.find?, truthyOpt, htf, hc,
          e1, normalHead, h0]
  refine ⟨by rw [hr1], by rw [hr1]; exact Store.get_put_self st _ _, ?_⟩
  have htf : Json.truthy (.jstr "foo") = true := by decide
  simp [create_canvas, hauth, jget, List.find?, truthyOpt, htf, hc2,
        e1, normalHead, Store.get_put_self]

theorem create_canvas_suffix_and_conflict_witness :
    (create_canvas none none [("filename", .jstr "foo"), ("content", .jstr "x")]
        (normalHead []) []).1.status = 201 ∧
    Store.get (create_canvas none none [("filename", .jstr "foo"), ("content", .jstr "x")]
        (normalHead []) []).2.1 "foo.canvas" = some (contentToStr (.jstr "x")) ∧
    (create_canvas none none [("filename", .jstr "foo"), ("content", .jstr "y")]
        (normalHead (Store.put [] "foo.canvas" (contentToStr (.jstr "x"))))
        (Store.put [] "foo.canvas" (contentToStr (.jstr "x")))) =
      (⟨409, errBody "Canvas file \x27foo.canvas\x27 already exists"⟩,
       Store.put [] "foo.canvas" (contentToStr (.jstr "x")), [.headOp "foo.canvas"]) :=
  create_canvas_suffix_and_conflict none none rfl (.jstr "x") (.jstr "y")
    (by decide) (by decide) [] rfl

/-- C4 counterexample: (i) a PUT /canvas/ghost on an empty store with a
content field that is present but empty is answered with 400, not the
claimed 404; (ii) moreover the key `ghost` itself being absent does not
imply a 404: when `ghost.canvas` exists, PUT /canvas/ghost succeeds with
200 because the handler normalizes the key first. -/
theorem update_canvas_absent_key_counterexample :
    (update_canvas none none "ghost" [("content", .jstr "")]
        (normalHead []) []).1.status = 400 ∧
    (update_canvas none none "ghost" [("content", .jstr "")]
        (normalHead []) []).1.status ≠ 404 ∧
    Store.get [("ghost.canvas", "x")] "ghost" = none ∧
    (update_canvas none none "ghost" [("content", .jstr "y")]
        (normalHead [("ghost.canvas", "x")]) [("ghost.canvas", "x")]).1.status = 200 := by
  refine ⟨rfl, by decide, rfl, rfl⟩

/-- C4 (amended): for every path filename K whose **normalized** key (with
`.canvas` appended when the suffix is absent) is missing from the store, a
PUT /canvas/K request with present **truthy** content returns HTTP 404,
performs no put operation (only the head probe is issued), and leaves the
store unchanged. -/
theorem update_canvas_absent_404 (tok auth : Option String)
    (hauth : check_auth tok auth = none) (K : String) (c : Json)
    (hc : c.truthy = true) (st : Store)
    (habs : Store.get st (normalizeCanvas K) = none) :
    update_canvas tok auth K [("content", c)] (normalHead st) st =
      (⟨404, errBody ("Canvas file \x27" ++ normalizeCanvas K ++ "\x27 not found")⟩,
       st, [.headOp (normalizeCanvas K)]) := by
  simp [update_canvas, hauth, jget, List.find?, truthyOpt, hc, normalHead, habs]

theorem update_canvas_absent_404_witness :
    update_canvas none none "ghost" [("content", .jstr "y")] (normalHead []) [] =
      (⟨404, errBody ("Canvas file \x27" ++ normalizeCanvas "ghost" ++ "\x27 not found")⟩,
       [], [.headOp (normalizeCanvas "ghost")]) :=
  update_canvas_absent_404 none none rfl "ghost" (.jstr "y") (by decide) [] rfl

/-- C5 counterexample: a permission error from the existence check — a
botocore ClientError that is not a not-found condition — is answered by
the update handler with 404, not the claimed 500: the source catches
`s3.exceptions.ClientError`, which covers every client error, not only
404. -/
theorem head_permission_error_counterexample :
    (update_canvas none none "doc" [("content", .jstr "x")]
        (fun _ => .clientError "An error occurred (403) when calling the HeadObject operation: Forbidden")
        [("doc.canvas", "old")]).1.status = 404 ∧
    (update_canvas none none "doc" [("content", .jstr "x")]
        (fun _ => .clientError "An error occurred (403) when calling the HeadObject operation: Forbidden")
        [("doc.canvas", "old")]).1.status ≠ 500 := by
  refine ⟨rfl, by decide⟩

/-- C5 (amended): any ClientError raised by the existence check — the 404
raised for a missing key and equally a 403 permission error — is treated
as not-found: update and delete answer 404 and create proceeds to write
and answers 201; only an exception from the head call that is **not** a
ClientError (e.g. a connection failure) is mapped to 500 with the error's
string representation in the body. -/
theorem head_error_mapping (tok auth : Option String)
    (hauth : check_auth tok auth = none) (K m : String) (hK : K ≠ "")
    (c : Json) (hc : c.truthy = true) (st : Store) :
    update_canvas tok auth K [("content", c)] (fun _ => .clientError m) st =
      (⟨404, errBody ("Canvas file \x27" ++ normalizeCanvas K ++ "\x27 not found")⟩,
       st, [.headOp (normalizeCanvas K)]) ∧
    delete_canvas tok auth K (fun _ => .clientError m) st =
      (⟨404, errBody ("Canvas file \x27" ++ normalizeCanvas K ++ "\x27 not found")⟩,
       st, [.headOp (normalizeCanvas K)]) ∧
    (create_canvas tok auth [("filename", .jstr K), ("content", c)]
        (fun _ => .clientError m) st).1.status = 201 ∧
    (update_canvas tok auth K [("content", c)] (fun _ => .otherExn m) st).1 =
      ⟨500, errBody m⟩ ∧
    (delete_canvas tok auth K (fun _ => .otherExn m) st).1 = ⟨500, errBody m⟩ ∧
    (create_canvas tok auth [("filename", .jstr K), ("content", c)]
        (fun _ => .otherExn m) st).1 = ⟨500, errBody m⟩ := by
  have htK : Json.truthy (.jstr K) = true := by simp [Json.truthy, hK]
  refine ⟨?_, ?_, ?_, ?_, ?_, ?_⟩ <;>
    simp [update_canvas, delete_canvas, create_canvas, hauth, jget,
          List.find?, truthyOpt, htK, hc]

theorem head_error_mapping_witness :
    update_canvas none none "doc" [("content", .jstr "x")]
        (fun _ => .clientError "403 Forbidden") [] =
      (⟨404, errBody ("Canvas file \x27" ++ normalizeCanvas "doc" ++ "\x27 not found")⟩,
       [], [.headOp (normalizeCanvas "doc")]) ∧
    (create_canvas none none [("filename", .jstr "doc"), ("content", .jstr "x")]
        (fun _ => .otherExn "connection timed out") []).1 =
      ⟨500, errBody "connection timed out"⟩ := by
  have h1 := head_error_mapping none none rfl "doc" "403 Forbidden"
    (by decide) (.jstr "x") (by decide) []
  have h2 := head_error_mapping none none rfl "doc" "connection timed out"
    (by decide) (.jstr "x") (by decide) []
  exact ⟨h1.1, h2.2.2.2.2.2⟩

/-- C6 counterexample: a POST /canvas whose content field is present — the
empty JSON object, the claim's own example — is answered with 400, and so
is a PUT /canvas/foo with the empty string as content: the source tests
Python truthiness, not field presence. -/
theorem validation_400_counterexample :
    (create_canvas none none [("filename", .jstr "foo"), ("content", .jobj [])]
        (normalHead []) []).1.status = 400 ∧
    (update_canvas none none "foo" [("content", .jstr "")]
        (normalHead [("foo.canvas", "x")]) [("foo.canvas", "x")]).1.status = 400 := by
  exact ⟨rfl, rfl⟩

/-- C6 (amended): with auth passing, a handler returns HTTP 400 with body
`\x7b"error": "<message>"\x7d` exactly when a required field is missing
**or present but falsy** under Python truthiness (empty string, empty
object or array, 0, false, null); a POST /canvas or PUT /canvas/\x7bname\x7d
request whose content is present and truthy never returns 400. -/
theorem validation_400_iff (tok auth : Option String)
    (hauth : check_auth tok auth = none) (data : List (String × Json))
    (K : String) (head : String → HeadOutcome) (st : Store) :
    ((create_canvas tok auth data head st).1.status = 400 ↔
      (truthyOpt (jget data "filename") = false ∨
       truthyOpt (jget data "content") = false)) ∧
    ((update_canvas tok auth K data head st).1.status = 400 ↔
      truthyOpt (jget data "content") = false) ∧
    ((read_note tok auth data st).1.status = 400 ↔
      truthyOpt (jget data "filename") = false) ∧
    ((write_note tok auth data st).1.status = 400 ↔
      truthyOpt (jget data "filename") = false) := by
  refine ⟨?_, ?_, ?_, ?_⟩
  · by_cases hf : truthyOpt (jget data "filename") = false
    · simp [create_canvas, hauth, hf]
    · have hf' : truthyOpt (jget data "filename") = true := by
        cases h : truthyOpt (jget data "filename") <;> simp_all
      by_cases hc : truthyOpt (jget data "content") = false
      · simp [create_canvas, hauth, hf', hc]
      · have hc' : truthyOpt (jget data "content") = true := by
          cases h : truthyOpt (jget data "content") <;> simp_all
        rcases hj : jget data "filename" with _ | j
        · rw [hj] at hf'; exact absurd hf' (by simp [truthyOpt])
        · rw [hj] at hf'
          cases j with
          | jstr f0 =>
              cases h2 : head (normalizeCanvas f0) <;>
                simp [create_canvas, hauth, hj, hf', hc', h2]
          | jnull => exact absurd hf' (by simp [truthyOpt, Json.truthy])
          | jbool b => simp [create_canvas, hauth, hj, hf', hc']
          | jnum n => simp [create_canvas, hauth, hj, hf', hc']
          | jarr xs => simp [create_canvas, hauth, hj, hf', hc']
          | jobj fs => simp [create_canvas, hauth, hj, hf', hc']
  · by_cases hc : truthyOpt (jget data "content") = false
    · simp [update_canvas, hauth, hc]
    · have hc' : truthyOpt (jget data "content") = true := by
        cases h : truthyOpt (jget data "content") <;> simp_all
      cases h2 : head (normalizeCanvas K) <;>
        simp [update_canvas, hauth, hc', h2]
  · by_cases hf : truthyOpt (jget data "filename") = false
    · simp [read_note, hauth, hf]
    · have hf' : truthyOpt (jget data "filename") = true := by
        cases h : truthyOpt (jget data "filename") <;> simp_all
      rcases hj : jget data "filename" with _ | j
      · rw [hj] at hf'; exact absurd hf' (by simp [truthyOpt])
      · rw [hj] at hf'
        cases j with
        | jstr f0 =>
            rcases hg : Store.get st f0 with _ | cont <;>
              simp [read_note, hauth, hj, hf', hg]
        | jnull => exact absurd hf' (by simp [truthyOpt, Json.truthy])
        | jbool b => simp [read_note, hauth, hj, hf']
        | jnum n => simp [read_note, hauth, hj, hf']
        | jarr xs => simp [read_note, hauth, hj, hf']
        | jobj fs => simp [read_note, hauth, hj, hf']
  · by_cases hf : truthyOpt (jget data "filename") = false
    · simp [write_note, hauth, hf]
    · have hf' : truthyOpt (jget data "filename") = true := by
        cases h : truthyOpt (jget data "filename") <;> simp_all
      rcases hj : jget data "filename" with _ | j
      · rw [hj] at hf'; exact absurd hf' (by simp [truthyOpt])
      · rw [hj] at hf'
        cases j with
        | jstr f0 =>
            cases hgc : (jget data "content").getD (.jstr "") <;>
              simp [write_note, hauth, hj, hf', hgc]
        | jnull => exact absurd hf' (by simp [truthyOpt, Json.truthy])
        | jbool b => simp [write_note, hauth, hj, hf']
        | jnum n => simp [write_note, hauth, hj, hf']
        | jarr xs => simp [write_note, hauth, hj, hf']
        | jobj fs => simp [write_note, hauth, hj, hf']

theorem validation_400_iff_witness :
    ((create_canvas none none [("filename", .jstr "foo"), ("content", .jstr "x")]
        (normalHead []) []).1.status = 400 ↔
      (truthyOpt (jget [("filename", Json.jstr "foo"), ("content", Json.jstr "x")] "filename") = false ∨
       truthyOpt (jget [("filename", Json.jstr "foo"), ("content", Json.jstr "x")] "content") = false)) ∧
    ((read_note none none [] []).1.status = 400 ↔
      truthyOpt (jget [] "filename") = false) :=
  have h := validation_400_iff none none rfl
    [("filename", Json.jstr "foo"), ("content", Json.jstr "x")] "k" (normalHead []) []
  have h2 := validation_400_iff none none rfl [] "k" (normalHead []) []
  ⟨h.1, h2.2.2.1⟩

theorem pyEndsWith_append_self (a b : String) : pyEndsWith (a ++ b) b = true := by
  simp only [pyEndsWith, String.data_append, List.isSuffixOf_iff_suffix]
  exact List.suffix_append a.data b.data

theorem normalizeCanvas_endsWith (F : String) :
    pyEndsWith (normalizeCanvas F) ".canvas" = true := by
  unfold normalizeCanvas
  cases h : pyEndsWith F ".canvas" with
  | true => simpa using h
  | false => simp [pyEndsWith_append_self]

theorem normalizeCanvas_idem (F : String) :
    normalizeCanvas (normalizeCanvas F) = normalizeCanvas F := by
  have h := normalizeCanvas_endsWith F
  show (if pyEndsWith (normalizeCanvas F) ".canvas" then normalizeCanvas F
        else normalizeCanvas F ++ ".canvas") = normalizeCanvas F
  rw [h]
  simp

theorem normalizeCanvas_ne_empty (F : String) : normalizeCanvas F ≠ "" := by
  unfold normalizeCanvas
  cases h : pyEndsWith F ".canvas" with
  | true =>
      simp only [if_true]
      intro hF0
      rw [hF0] at h
      exact absurd h (by decide)
  | false =>
      simp only [Bool.false_eq_true, if_false]
      intro hc
      have hd : F.data ++ (".canvas" : String).data = [] := by
        rw [← String.data_append, hc]
      have h7 : (".canvas" : String).data = [] := (List.append_eq_nil.mp hd).2
      exact absurd h7 (by decide)

/-- C8: canvas filename normalization always yields a key ending in
`.canvas` and is idempotent, so requests addressing `F` and its normalized
form (in particular `foo` and `foo.canvas`) operate on the same stored key
across the get, create, update and delete endpoints. -/
theorem canvas_key_normalization (F : String) (hF : F ≠ "")
    (tok auth : Option String) (data : List (String × Json)) (c : Json)
    (loads : String → Option Json) (lastModOf : String → String)
    (head : String → HeadOutcome) (st : Store) :
    pyEndsWith (normalizeCanvas F) ".canvas" = true ∧
    normalizeCanvas (normalizeCanvas F) = normalizeCanvas F ∧
    get_canvas tok auth F loads lastModOf st =
      get_canvas tok auth (normalizeCanvas F) loads lastModOf st ∧
    create_canvas tok auth [("filename", .jstr F), ("content", c)] head st =
      create_canvas tok auth [("filename", .jstr (normalizeCanvas F)), ("content", c)] head st ∧
    update_canvas tok auth F data head st =
      update_canvas tok auth (normalizeCanvas F) data head st ∧
    delete_canvas tok auth F head st =
      delete_canvas tok auth (normalizeCanvas F) head st := by
  have h1 : Json.truthy (.jstr F) = true := by simp [Json.truthy, hF]
  have h2 : Json.truthy (.jstr (normalizeCanvas F)) = true := by
    simp [Json.truthy, normalizeCanvas_ne_empty]
  refine ⟨normalizeCanvas_endsWith F, normalizeCanvas_idem F, ?_, ?_, ?_, ?_⟩ <;>
    cases hchk : check_auth tok auth <;>
      simp [get_canvas, create_canvas, update_canvas, delete_canvas,
            jget, List.find?, truthyOpt, h1, h2, normalizeCanvas_idem]

theorem canvas_key_normalization_witness :
    pyEndsWith (normalizeCanvas "foo") ".canvas" = true ∧
    normalizeCanvas (normalizeCanvas "foo") = normalizeCanvas "foo" ∧
    get_canvas none none "foo" (fun _ => none) (fun _ => "") [] =
      get_canvas none none (normalizeCanvas "foo") (fun _ => none) (fun _ => "") [] :=
  have h := canvas_key_normalization "foo" (by decide) none none [] (.jstr "x")
    (fun _ => none) (fun _ => "") (fun _ => .ok) []
  ⟨h.1, h.2.1, h.2.2.1⟩

/-! ## Bandwidth tracker lemmas -/

theorem byteLen_empty : byteLen "" = 0 := rfl

theorem track_before_requests (req : TrackedRequest) (bw : BandwidthStats) :
    (track_bandwidth_before req bw).total_requests = bw.total_requests := by
  unfold track_bandwidth_before
  split_ifs <;> rfl

theorem track_before_sent (req : TrackedRequest) (bw : BandwidthStats) :
    (track_bandwidth_before req bw).total_bytes_sent = bw.total_bytes_sent := by
  unfold track_bandwidth_before
  split_ifs <;> rfl

theorem track_before_endpoints (req : TrackedRequest) (bw : BandwidthStats) :
    (track_bandwidth_before req bw).endpoints = bw.endpoints := by
  unfold track_bandwidth_before
  split_ifs <;> rfl

theorem track_before_recv (req : TrackedRequest) (bw : BandwidthStats) :
    (track_bandwidth_before req bw).total_bytes_received =
      bw.total_bytes_received + observedReqSize req := by
  unfold track_bandwidth_before observedReqSize
  split_ifs <;> simp

theorem track_after_requests (req : TrackedRequest) (respData : String)
    (epn : Option String) (bw : BandwidthStats) :
    (track_bandwidth_after req respData epn bw).total_requests =
      bw.total_requests + 1 := by
  unfold track_bandwidth_after
  split_ifs <;> rfl

theorem track_after_recv (req : TrackedRequest) (respData : String)
    (epn : Option String) (bw : BandwidthStats) :
    (track_bandwidth_after req respData epn bw).total_bytes_received =
      bw.total_bytes_received := by
  unfold track_bandwidth_after
  split_ifs <;> rfl

theorem track_after_sent (req : TrackedRequest) (respData : String)
    (epn : Option String) (bw : BandwidthStats) :
    (track_bandwidth_after req respData epn bw).total_bytes_sent =
      bw.total_bytes_sent + byteLen respData := by
  unfold track_bandwidth_after
  by_cases h : respData = ""
  · subst h; simp [byteLen_empty]
  · simp [h]

theorem track_after_endpoints (req : TrackedRequest) (respData : String)
    (epn : Option String) (bw : BandwidthStats) :
    (track_bandwidth_after req respData epn bw).endpoints =
      updateEndpoints bw.endpoints (epName epn) req.data respData := by
  unfold track_bandwidth_after
  split_ifs <;> rfl

theorem processRequest_requests (bw : BandwidthStats) (e : ReqEvent) :
    (processRequest bw e).total_requests = bw.total_requests + 1 := by
  unfold processRequest
  rw [track_after_requests, track_before_requests]

theorem processRequest_recv (bw : BandwidthStats) (e : ReqEvent) :
    (processRequest bw e).total_bytes_received =
      bw.total_bytes_received + observedReqSize e.req := by
  unfold processRequest
  rw [track_after_recv, track_before_recv]

theorem processRequest_sent (bw : BandwidthStats) (e : ReqEvent) :
    (processRequest bw e).total_bytes_sent =
      bw.total_bytes_sent + byteLen e.respData := by
  unfold processRequest
  rw [track_after_sent, track_before_sent]

theorem fold_total_requests (rs : List ReqEvent) (bw : BandwidthStats) :
    (rs.foldl processRequest bw).total_requests =
      bw.total_requests + rs.length := by
  induction rs generalizing bw with
  | nil => simp
  | cons r rest ih =>
      simp only [List.foldl_cons, ih, processRequest_requests, List.length_cons]
      omega

theorem fold_total_recv (rs : List ReqEvent) (bw : BandwidthStats) :
    (rs.foldl processRequest bw).total_bytes_received =
      bw.total_bytes_received +
        (rs.map (fun e => observedReqSize e.req)).sum := by
  induction rs generalizing bw with
  | nil => simp
  | cons r rest ih =>
      simp only [List.foldl_cons, ih, processRequest_recv, List.map_cons,
                 List.sum_cons]
      omega

theorem fold_total_sent (rs : List ReqEvent) (bw : BandwidthStats) :
    (rs.foldl processRequest bw).total_bytes_sent =
      bw.total_bytes_sent + (rs.map (fun e => byteLen e.respData)).sum := by
  induction rs generalizing bw with
  | nil => simp
  | cons r rest ih =>
      simp only [List.foldl_cons, ih, processRequest_sent, List.map_cons,
                 List.sum_cons]
      omega

/-- C7: after N completed requests with known request and response body
sizes, GET /stats reports a total request count equal to N, total bytes
received equal to the sum of the observed request-body sizes (the size the
before hook counts: raw body bytes, else the encoded form representation),
and total bytes sent equal to the sum of the response body sizes. -/
theorem stats_reports_totals (tok auth : Option String)
    (hauth : check_auth tok auth = none) (rs : List ReqEvent) :
    (get_stats tok auth (rs.foldl processRequest initialStats)).status = 200 ∧
    ((get_stats tok auth (rs.foldl processRequest initialStats)).body.getField
        "requests" >>= (fun j => j.getField "total")) =
      some (.jnum rs.length) ∧
    ((get_stats tok auth (rs.foldl processRequest initialStats)).body.getField
        "bandwidth" >>= (fun j => j.getField "total_bytes_received")) =
      some (.jnum ((rs.map (fun e => observedReqSize e.req)).sum)) ∧
    ((get_stats tok auth (rs.foldl processRequest initialStats)).body.getField
        "bandwidth" >>= (fun j => j.getField "total_bytes_sent")) =
      some (.jnum ((rs.map (fun e => byteLen e.respData)).sum)) := by
  have h1 := fold_total_requests rs initialStats
  have h2 := fold_total_recv rs initialStats
  have h3 := fold_total_sent rs initialStats
  rw [show initialStats.total_requests = 0 from rfl, Nat.zero_add] at h1
  rw [show initialStats.total_bytes_received = 0 from rfl, Nat.zero_add] at h2
  rw [show initialStats.total_bytes_sent = 0 from rfl, Nat.zero_add] at h3
  refine ⟨?_, ?_, ?_, ?_⟩ <;>
    simp [get_stats, hauth, Json.getField, jget, List.find?, h1, h2, h3]

theorem stats_reports_totals_witness :
    (get_stats none none
        ([⟨⟨"abc", []⟩, "resp", some "read_note"⟩].foldl processRequest
          initialStats)).status = 200 ∧
    ((get_stats none none
        ([⟨⟨"abc", []⟩, "resp", some "read_note"⟩].foldl processRequest
          initialStats)).body.getField "requests" >>= (fun j => j.getField "total")) =
      some (.jnum ([⟨⟨"abc", []⟩, "resp", some "read_note"⟩] : List ReqEvent).length) :=
  have h := stats_reports_totals none none rfl
    [⟨⟨"abc", []⟩, "resp", some "read_note"⟩]
  ⟨h.1, h.2.1⟩

theorem byteLen_append (a b : String) :
    byteLen (a ++ b) = byteLen a + byteLen b := by
  simp [byteLen, String.data_append]

theorem byteLen_formStr_pos (form : List (String × String)) :
    0 < byteLen (formStr form) := by
  unfold formStr
  rw [byteLen_append, byteLen_append]
  have h : 0 < byteLen "ImmutableMultiDict([" := by decide
  omega

theorem lookupEp_append_self (l : List (String × EndpointStats)) (k : String)
    (v : EndpointStats) (h : lookupEp l k = none) :
    lookupEp (l ++ [(k, v)]) k = some v := by
  induction l with
  | nil => simp [lookupEp]
  | cons p rest ih =>
      by_cases hb : (p.1 == k) = true
      · simp [lookupEp, hb] at h
      · have hb' : (p.1 == k) = false := by revert hb; cases (p.1 == k) <;> simp
        simp only [List.cons_append, lookupEp, hb', Bool.false_eq_true,
                   if_false] at h ⊢
        exact ih h

theorem sumEpRecv_append (l : List (String × EndpointStats)) (k : String)
    (v : EndpointStats) :
    sumEpRecv (l ++ [(k, v)]) = sumEpRecv l + v.bytes_received := by
  simp [sumEpRecv]

theorem sumEpRecv_setEp (l : List (String × EndpointStats)) (k : String)
    (c v : EndpointStats) (hk : lookupEp l k = some c) :
    sumEpRecv (setEp l k v) + c.bytes_received =
      sumEpRecv l + v.bytes_received := by
  induction l with
  | nil => simp [lookupEp] at hk
  | cons p rest ih =>
      by_cases hb : (p.1 == k) = true
      · simp only [lookupEp, hb, if_true, Option.some.injEq] at hk
        simp [setEp, hb, sumEpRecv, hk]
        omega
      · simp only [lookupEp, hb, Bool.false_eq_true, if_false] at hk
        have h2 := ih hk
        simp only [setEp, hb, Bool.false_eq_true, if_false]
        simp only [sumEpRecv, List.map_cons, List.sum_cons] at h2 ⊢
        omega

theorem updEntry_recv (reqData respData : String) (c : EndpointStats) :
    (updEntry reqData respData c).bytes_received =
      c.bytes_received + (if reqData != "" then byteLen reqData else 0) := by
  unfold updEntry
  split_ifs <;> simp

theorem sumEpRecv_updateEndpoints (l : List (String × EndpointStats))
    (ep : String) (reqData respData : String) :
    sumEpRecv (updateEndpoints l ep reqData respData) =
      sumEpRecv l + (if reqData != "" then byteLen reqData else 0) := by
  unfold updateEndpoints
  by_cases h : lookupEp l ep = none
  · have h2 := lookupEp_append_self l ep ⟨0, 0, 0⟩ h
    simp only [h, Option.isNone_none, if_true, h2, Option.getD_some]
    have h3 := sumEpRecv_setEp (l ++ [(ep, ⟨0, 0, 0⟩)]) ep ⟨0, 0, 0⟩
      (updEntry reqData respData ⟨0, 0, 0⟩) h2
    have h4 := updEntry_recv reqData respData ⟨0, 0, 0⟩
    have h5 := sumEpRecv_append l ep ⟨0, 0, 0⟩
    have hz : (⟨0, 0, 0⟩ : EndpointStats).bytes_received = 0 := rfl
    omega
  · rcases ho : lookupEp l ep with _ | c
    · exact absurd ho h
    · simp only [ho, Option.isNone_some, Bool.false_eq_true, if_false,
                 Option.getD_some]
      have h3 := sumEpRecv_setEp l ep c (updEntry reqData respData c) ho
      have h4 := updEntry_recv reqData respData c
      omega

theorem processRequest_sumEp (bw : BandwidthStats) (e : ReqEvent) :
    sumEpRecv (processRequest bw e).endpoints =
      sumEpRecv bw.endpoints +
        (if e.req.data != "" then byteLen e.req.data else 0) := by
  unfold processRequest
  rw [track_after_endpoints, track_before_endpoints, sumEpRecv_updateEndpoints]

theorem epDelta_le_observed (req : TrackedRequest) :
    (if req.data != "" then byteLen req.data else 0) ≤ observedReqSize req := by
  unfold observedReqSize
  split_ifs <;> simp

theorem epDelta_lt_observed_of_form (req : TrackedRequest)
    (h1 : req.data = "") (h2 : req.form ≠ []) :
    (if req.data != "" then byteLen req.data else 0) < observedReqSize req := by
  unfold observedReqSize
  simp [h1, h2, byteLen_formStr_pos]

theorem fold_sumEp_le (rs : List ReqEvent) (bw : BandwidthStats)
    (h : sumEpRecv bw.endpoints ≤ bw.total_bytes_received) :
    sumEpRecv (rs.foldl processRequest bw).endpoints ≤
      (rs.foldl processRequest bw).total_bytes_received := by
  induction rs generalizing bw with
  | nil => simpa
  | cons r rest ih =>
      simp only [List.foldl_cons]
      apply ih
      rw [processRequest_sumEp, processRequest_recv]
      have := epDelta_le_observed r.req
      omega

theorem fold_sumEp_lt (rs : List ReqEvent) (bw : BandwidthStats)
    (h : sumEpRecv bw.endpoints < bw.total_bytes_received) :
    sumEpRecv (rs.foldl processRequest bw).endpoints <
      (rs.foldl processRequest bw).total_bytes_received := by
  induction rs generalizing bw with
  | nil => simpa
  | cons r rest ih =>
      simp only [List.foldl_cons]
      apply ih
      rw [processRequest_sumEp, processRequest_recv]
      have := epDelta_le_observed r.req
      omega

theorem fold_sumEp_lt_of_mem (rs : List ReqEvent) (bw : BandwidthStats)
    (h : sumEpRecv bw.endpoints ≤ bw.total_bytes_received)
    (hw : ∃ r ∈ rs, r.req.data = "" ∧ r.req.form ≠ []) :
    sumEpRecv (rs.foldl processRequest bw).endpoints <
      (rs.foldl processRequest bw).total_bytes_received := by
  induction rs generalizing bw with
  | nil =>
      rcases hw with ⟨r, hr, _⟩
      exact absurd hr (List.not_mem_nil r)
  | cons r rest ih =>
      simp only [List.foldl_cons]
      rcases hw with ⟨r0, hr0, hd, hf⟩
      rcases List.mem_cons.mp hr0 with heq | hmem
      · subst heq
        apply fold_sumEp_lt
        rw [processRequest_sumEp, processRequest_recv]
        have := epDelta_lt_observed_of_form r0.req hd hf
        omega
      · refine ih _ ?_ ⟨r0, hmem, hd, hf⟩
        rw [processRequest_sumEp, processRequest_recv]
        have := epDelta_le_observed r.req
        omega

/-- C10: after every sequence of requests starting from the initial
counters, the sum over all endpoints of the per-endpoint bytes_received
counters is at most the global total_bytes_received counter, and the
inequality is strict as soon as some request carried a form-encoded body
and no raw body: form bodies are counted only in the global total, never
in any per-endpoint entry. -/
theorem endpoint_recv_le_total (rs : List ReqEvent) :
    sumEpRecv (rs.foldl processRequest initialStats).endpoints ≤
      (rs.foldl processRequest initialStats).total_bytes_received ∧
    ((∃ r ∈ rs, r.req.data = "" ∧ r.req.form ≠ []) →
      sumEpRecv (rs.foldl processRequest initialStats).endpoints <
        (rs.foldl processRequest initialStats).total_bytes_received) :=
  ⟨fold_sumEp_le rs initialStats (by simp [initialStats, sumEpRecv]),
   fun hw => fold_sumEp_lt_of_mem rs initialStats
     (by simp [initialStats, sumEpRecv]) hw⟩

theorem endpoint_recv_le_total_witness :
    sumEpRecv ([⟨⟨"", [("a", "b")]⟩, "ok", some "write_note"⟩].foldl
        processRequest initialStats).endpoints <
      ([⟨⟨"", [("a", "b")]⟩, "ok", some "write_note"⟩].foldl
        processRequest initialStats).total_bytes_received :=
  (endpoint_recv_le_total [⟨⟨"", [("a", "b")]⟩, "ok", some "write_note"⟩]).2
    ⟨⟨⟨"", [("a", "b")]⟩, "ok", some "write_note"⟩, by simp, rfl, by simp⟩

end StorjWorker
